import Mathlib

/-!
# L3G4200D gyro driver (`src/main/drivers/accgyro/accgyro_l3g4200d.c`)

A shallow embedding of the driver.  The driver talks to collaborators that
live outside the file (bus transport, delay, fault reporting); they are
modelled by a `World` that scripts their answers and records every call in a
trace.  The driver functions are translated statement by statement and thread
the `World` explicitly.
-/

namespace L3G4200D

/-! ## Constants of the source file -/

def L3G4200D_ADDRESS : Nat := 0x68
def L3G4200D_ID : Nat := 0xD3
def L3G4200D_AUTOINCR : Nat := 0x80

def L3G4200D_WHO_AM_I : Nat := 0x0F
def L3G4200D_CTRL_REG1 : Nat := 0x20
def L3G4200D_CTRL_REG2 : Nat := 0x21
def L3G4200D_CTRL_REG3 : Nat := 0x22
def L3G4200D_CTRL_REG4 : Nat := 0x23
def L3G4200D_CTRL_REG5 : Nat := 0x24
def L3G4200D_REFERENCE : Nat := 0x25
def L3G4200D_STATUS_REG : Nat := 0x27
def L3G4200D_GYRO_OUT : Nat := 0x28

def L3G4200D_POWER_ON : Nat := 0x0F
def L3G4200D_FS_SEL_2000DPS : Nat := 0xF0
def L3G4200D_DLPF_32HZ : Nat := 0x00
def L3G4200D_DLPF_54HZ : Nat := 0x40
def L3G4200D_DLPF_78HZ : Nat := 0x80
def L3G4200D_DLPF_93HZ : Nat := 0xC0

/-- Axis indices of `common/axis.h`. -/
def X : Fin 3 := 0
def Y : Fin 3 := 1
def Z : Fin 3 := 2

/-! ## Types declared in headers outside the file -/

/-- An unsigned byte. -/
abbrev uint8_t := Fin 256

/-- The one enumerator of `busType_e` the driver uses. -/
inductive busType_e
  | BUSTYPE_ANY
  deriving DecidableEq, Repr

/-- The one enumerator of `devHardwareType_e` the driver uses. -/
inductive devHardwareType_e
  | DEVHW_L3G4200
  deriving DecidableEq, Repr

/-- The one enumerator of `resourceOwner_e` the driver uses. -/
inductive resourceOwner_e
  | OWNER_MPU
  deriving DecidableEq, Repr

/-- The one enumerator of `busSpeed_e` the driver uses. -/
inductive busSpeed_e
  | BUS_SPEED_INITIALIZATION
  deriving DecidableEq, Repr

/-- The one enumerator of `failureMode_e` the driver uses. -/
inductive failureMode_e
  | FAILURE_ACC_INIT
  deriving DecidableEq, Repr

/-- The part of `busDevice_t` the driver looks at: the routing parameter
`param`.  `tag` tells two descriptors with equal `param` apart. -/
structure busDevice_t where
  tag : Nat
  param : Nat
  deriving DecidableEq, Repr

/-- A `busDevice_t *`: `none` is `NULL`, `some d` a pointer to descriptor `d`. -/
abbrev busDevicePtr := Option busDevice_t

/-- A function pointer stored in `initFn` / `readFn`: either one of the two
static functions of this file or something put there by other code. -/
inductive gyroFnPtr
  | foreign (addr : Nat)
  | l3g4200dInit
  | l3g4200dRead
  deriving DecidableEq, Repr

/-- A value of the `float` field `scale`, kept symbolic: either the constant
expression `1.0f / 14.2857f` of the source or some other bit pattern. -/
inductive scaleValue
  | bits (b : Nat)
  | oneOver14_2857
  deriving DecidableEq, Repr

/-- The fields of `gyroDev_t` the driver reads or writes. -/
structure gyroDev_t where
  busDev : busDevicePtr
  initFn : gyroFnPtr
  readFn : gyroFnPtr
  scale : scaleValue
  gyroADCRaw : Fin 3 → Int
  lpf : Int
  imuSensorToUse : Nat
  gyroAlign : Nat

/-! ## Collaborators -/

/-- One call made to a collaborator, with its arguments. -/
inductive Event
  | busDeviceInit (bus : busType_e) (hw : devHardwareType_e) (sensor : Nat)
      (owner : resourceOwner_e)
  | busDeviceDeInit (dev : busDevicePtr)
  | busSetSpeed (dev : busDevicePtr) (speed : busSpeed_e)
  | busRead (dev : busDevicePtr) (reg : Nat)
  | busReadBuf (dev : busDevicePtr) (reg : Nat) (length : Nat)
  | busWrite (dev : busDevicePtr) (reg : Nat) (data : Nat)
  | delay (ms : Nat)
  | failureMode (mode : failureMode_e)
  deriving DecidableEq, Repr

/-- Answer of one `busRead`: the acknowledgment and the byte that is in the
caller's one-byte buffer when the call comes back (on a failed transaction:
whatever is left there). -/
structure BusReadResult where
  ack : Bool
  data : uint8_t

/-- Answer of one `busReadBuf`: the acknowledgment and the byte found at each
offset of the caller's buffer when the call comes back. -/
structure BusReadBufResult where
  ack : Bool
  data : Nat → uint8_t

/-- The environment of the driver.  Each `…Resp` stream holds the answers the
collaborator will give to its coming calls, next answer at index `0`;
`failureModeReturns` says whether `failureMode` gives control back to its
caller; `trace` is the list of calls made so far, oldest first. -/
structure World where
  deviceInitResp : Nat → busDevicePtr
  readResp : Nat → BusReadResult
  readBufResp : Nat → BusReadBufResult
  writeAck : Nat → Bool
  failureModeReturns : Bool
  trace : List Event

/-- Record a call. -/
def World.emit (w : World) (e : Event) : World :=
  { w with trace := w.trace ++ [e] }

/-- The calls made between world `w` and the later world `w2`. -/
def newEvents (w w2 : World) : List Event :=
  w2.trace.drop w.trace.length

/-! The collaborators below are declared in headers outside the driver file.
Each one records its call and, when it has a result, hands back the next answer
of its stream.  They take pointers by value, so none of them can store to a
field of the caller's handle. -/

def delay (w : World) (ms : Nat) : World :=
  w.emit (.delay ms)

def busDeviceInit (w : World) (bus : busType_e) (hw : devHardwareType_e) (sensor : Nat)
    (owner : resourceOwner_e) : busDevicePtr × World :=
  (w.deviceInitResp 0,
   { w.emit (.busDeviceInit bus hw sensor owner) with
     deviceInitResp := fun n => w.deviceInitResp (n + 1) })

def busDeviceDeInit (w : World) (dev : busDevicePtr) : World :=
  w.emit (.busDeviceDeInit dev)

def busSetSpeed (w : World) (dev : busDevicePtr) (speed : busSpeed_e) : World :=
  w.emit (.busSetSpeed dev speed)

def busRead (w : World) (dev : busDevicePtr) (reg : Nat) : BusReadResult × World :=
  (w.readResp 0,
   { w.emit (.busRead dev reg) with readResp := fun n => w.readResp (n + 1) })

def busReadBuf (w : World) (dev : busDevicePtr) (reg : Nat) (length : Nat) :
    BusReadBufResult × World :=
  (w.readBufResp 0,
   { w.emit (.busReadBuf dev reg length) with readBufResp := fun n => w.readBufResp (n + 1) })

def busWrite (w : World) (dev : busDevicePtr) (reg : Nat) (data : Nat) : Bool × World :=
  (w.writeAck 0,
   { w.emit (.busWrite dev reg data) with writeAck := fun n => w.writeAck (n + 1) })

/-- The fault reporter of `drivers/system.h`; its body is not part of the
driver file.  The call is recorded; the Boolean tells whether control comes
back to the caller, which the world decides (`failureModeReturns`). -/
def failureMode (w : World) (mode : failureMode_e) : World × Bool :=
  (w.emit (.failureMode mode), w.failureModeReturns)

/-! ## The driver -/

/-- The cast `(int16_t)v` of a non-negative `int`: reduction modulo `2^16` into
`[-32768, 32767]`. -/
def toInt16 (v : Nat) : Int :=
  if v % 65536 < 32768 then ((v % 65536 : Nat) : Int) else ((v % 65536 : Nat) : Int) - 65536

/-- The `switch (gyro->lpf)` of `l3g4200dInit`. -/
def mpuLowPassFilter (lpf : Int) : Nat :=
  match lpf with
  | 3 => L3G4200D_DLPF_32HZ
  | 2 => L3G4200D_DLPF_54HZ
  | 1 => L3G4200D_DLPF_78HZ
  | 0 => L3G4200D_DLPF_93HZ
  | _ => L3G4200D_DLPF_32HZ

/-- What a call of `l3g4200dInit` leaves behind: the world, the handle, and
whether the call returned (`false`: control stayed inside `failureMode`). -/
structure InitOutcome where
  world : World
  gyro : gyroDev_t
  returned : Bool

def l3g4200dInit (w : World) (gyro : gyroDev_t) : InitOutcome :=
  let filter := mpuLowPassFilter gyro.lpf
  let w1 := delay w 100
  let r := busWrite w1 gyro.busDev L3G4200D_CTRL_REG4 L3G4200D_FS_SEL_2000DPS
  let ack := r.1
  let f := if !ack then failureMode r.2 .FAILURE_ACC_INIT else (r.2, true)
  if !f.2 then
    { world := f.1, gyro := gyro, returned := false }
  else
    let w2 := delay f.1 5
    let r2 := busWrite w2 gyro.busDev L3G4200D_CTRL_REG1 (L3G4200D_POWER_ON ||| filter)
    { world := r2.2, gyro := gyro, returned := true }

/-- The assignment `gyro->gyroADCRaw[axis] = v`. -/
def setADCRaw (gyro : gyroDev_t) (axis : Fin 3) (v : Int) : gyroDev_t :=
  { gyro with gyroADCRaw := Function.update gyro.gyroADCRaw axis v }

def l3g4200dRead (w : World) (gyro : gyroDev_t) : World × gyroDev_t × Bool :=
  let r := busReadBuf w gyro.busDev (L3G4200D_AUTOINCR ||| L3G4200D_GYRO_OUT) 6
  let buf := r.1.data
  if !r.1.ack then
    (r.2, gyro, false)
  else
    let gx := setADCRaw gyro X (toInt16 (((buf 0).val <<< 8) ||| (buf 1).val))
    let gy := setADCRaw gx Y (toInt16 (((buf 2).val <<< 8) ||| (buf 3).val))
    let gz := setADCRaw gy Z (toInt16 (((buf 4).val <<< 8) ||| (buf 5).val))
    (r.2, gz, true)

/-- The `for` loop of `deviceDetect` with `remaining` iterations still to run
(`retry = 5 - remaining`). -/
def deviceDetectLoop : Nat → World → busDevicePtr → World × Bool
  | 0, w, _ => (w, false)
  | remaining + 1, w, busDev =>
    let w1 := delay w 150
    let r := busRead w1 busDev L3G4200D_WHO_AM_I
    let ack := r.1.ack
    let deviceid := r.1.data
    if ack && deviceid.val == L3G4200D_ID then
      (r.2, true)
    else
      deviceDetectLoop remaining r.2 busDev

def deviceDetect (w : World) (busDev : busDevicePtr) : World × Bool :=
  let w1 := busSetSpeed w busDev .BUS_SPEED_INITIALIZATION
  deviceDetectLoop 5 w1 busDev

def l3g4200dDetect (w : World) (gyro : gyroDev_t) : World × gyroDev_t × Bool :=
  let a := busDeviceInit w .BUSTYPE_ANY .DEVHW_L3G4200 gyro.imuSensorToUse .OWNER_MPU
  let g := { gyro with busDev := a.1 }
  match g.busDev with
  | none => (a.2, g, false)
  | some dev =>
    let d := deviceDetect a.2 g.busDev
    if !d.2 then
      (busDeviceDeInit d.1 g.busDev, g, false)
    else
      (d.1,
       { g with
         initFn := .l3g4200dInit,
         readFn := .l3g4200dRead,
         scale := .oneOver14_2857,
         gyroAlign := dev.param },
       true)

/-! ## Sample inputs -/

/-- A handle as a caller may pass it in: nothing detected yet. -/
def sampleGyro : gyroDev_t :=
  { busDev := none, initFn := .foreign 0, readFn := .foreign 0, scale := .bits 0,
    gyroADCRaw := fun _ => 7, lpf := 2, imuSensorToUse := 0, gyroAlign := 0 }

/-- A bus descriptor. -/
def sampleDev : busDevice_t := { tag := 1, param := 4 }

/-- A handle that owns `sampleDev`. -/
def sampleDetectedGyro : gyroDev_t := { sampleGyro with busDev := some sampleDev }

/-- A world in which no device is present: acquisition fails and no
transaction is acknowledged. -/
def deadWorld : World :=
  { deviceInitResp := fun _ => none,
    readResp := fun _ => { ack := false, data := 0 },
    readBufResp := fun _ => { ack := false, data := fun _ => 0 },
    writeAck := fun _ => false,
    failureModeReturns := false,
    trace := [] }

/-- The six sample bytes `12 34 56 78 9A BC`. -/
def sampleBytes : Nat → uint8_t
  | 0 => 0x12
  | 1 => 0x34
  | 2 => 0x56
  | 3 => 0x78
  | 4 => 0x9A
  | 5 => 0xBC
  | _ => 0

/-- A world whose buffer reads are acknowledged and deliver `sampleBytes`. -/
def sampleReadWorld : World :=
  { deadWorld with readBufResp := fun _ => { ack := true, data := sampleBytes } }

/-- A world whose buffer reads fail and leave `sampleBytes` in the buffer. -/
def failedReadWorld : World :=
  { deadWorld with readBufResp := fun _ => { ack := false, data := sampleBytes } }

/-- A world in which every register write is acknowledged. -/
def ackWorld : World :=
  { deadWorld with writeAck := fun _ => true }

/-! ## Definitions taken from the specification's wording -/

/-- The two's-complement reading of a 16-bit value as the specification words
it: `v` if `v < 32768`, else `v - 65536`. -/
def specSigned16 (v : Nat) : Int :=
  if v < 32768 then (v : Int) else (v : Int) - 65536

/-- The filter table as the specification words it: `3 → 32Hz`, `2 → 54Hz`,
`1 → 78Hz`, `0 → 93Hz`, anything else as for `3`. -/
def specFilterCode (lpf : Int) : Nat :=
  if lpf = 3 then 0x00
  else if lpf = 2 then 0x40
  else if lpf = 1 then 0x80
  else if lpf = 0 then 0xC0
  else 0x00

/-! ## Reading traces -/

/-- The calls of `k` probe attempts on `dev`: `k` times a delay of 150 followed
by one read of register 0x0F. -/
def probeCalls (dev : busDevicePtr) (k : Nat) : List Event :=
  (List.replicate k [Event.delay 150, Event.busRead dev 0x0F]).flatten

/-- The call `l3g4200dDetect` starts with. -/
def acquireCall (gyro : gyroDev_t) : Event :=
  Event.busDeviceInit .BUSTYPE_ANY .DEVHW_L3G4200 gyro.imuSensorToUse .OWNER_MPU

/-- Sum of the delays in a list of calls. -/
def totalDelay : List Event → Nat
  | [] => 0
  | Event.delay ms :: rest => ms + totalDelay rest
  | _ :: rest => totalDelay rest

/-- Whether a call releases a bus device. -/
def isRelease : Event → Bool
  | Event.busDeviceDeInit _ => true
  | _ => false

/-- A world in which the device shows up: acquisition yields `sampleDev`, the
first two identity reads fail (one unacknowledged with 0xD3 left in the buffer,
one acknowledged with another byte) and the third one matches. -/
def presentWorld : World :=
  { deadWorld with
    deviceInitResp := fun _ => some sampleDev,
    readResp := fun n =>
      match n with
      | 0 => { ack := false, data := 0xD3 }
      | 1 => { ack := true, data := 0x68 }
      | _ => { ack := true, data := 0xD3 } }

/-- A world in which the bus is there but the device never answers with its
identity: acquisition yields `sampleDev`, every identity read is unacknowledged
and leaves 0xD3 in the buffer. -/
def absentWorld : World :=
  { deadWorld with
    deviceInitResp := fun _ => some sampleDev,
    readResp := fun _ => { ack := false, data := 0xD3 } }

/-! ## Auxiliary lemmas -/

theorem newEvents_append (w w2 : World) (l : List Event) (h : w2.trace = w.trace ++ l) :
    newEvents w w2 = l := by
  simp [newEvents, h]

theorem shl8_or_eq (a b : Nat) (hb : b < 256) : (a <<< 8) ||| b = a * 256 + b := by
  have h := Nat.mul_add_lt_is_or (i := 8) (b := b) (by simpa using hb) a
  rw [Nat.shiftLeft_eq, Nat.mul_comm a (2 ^ 8), ← h]

theorem toInt16_eq_specSigned16 (v : Nat) (hv : v < 65536) : toInt16 v = specSigned16 v := by
  simp [toInt16, specSigned16, Nat.mod_eq_of_lt hv]

theorem decode_pair (hi lo : uint8_t) :
    toInt16 ((hi.val <<< 8) ||| lo.val) = specSigned16 (hi.val * 256 + lo.val) := by
  rw [shl8_or_eq _ _ lo.isLt]
  apply toInt16_eq_specSigned16
  have h1 := hi.isLt
  have h2 := lo.isLt
  omega

theorem mpuLowPassFilter_eq_spec (lpf : Int) : mpuLowPassFilter lpf = specFilterCode lpf := by
  unfold mpuLowPassFilter specFilterCode
  split <;> simp_all [L3G4200D_DLPF_32HZ, L3G4200D_DLPF_54HZ, L3G4200D_DLPF_78HZ,
    L3G4200D_DLPF_93HZ]

/-- The calls one `l3g4200dInit` makes, in order. -/
theorem l3g4200dInit_trace (w : World) (gyro : gyroDev_t) :
    (l3g4200dInit w gyro).world.trace =
      w.trace ++
        ([Event.delay 100, Event.busWrite gyro.busDev 0x23 0xF0] ++
          ((if w.writeAck 0 = true then [] else [Event.failureMode .FAILURE_ACC_INIT]) ++
            (if w.writeAck 0 = true ∨ w.failureModeReturns = true then
              [Event.delay 5,
               Event.busWrite gyro.busDev 0x20 (0x0F ||| mpuLowPassFilter gyro.lpf)]
             else []))) := by
  cases hack : w.writeAck 0 <;> cases hret : w.failureModeReturns <;>
    simp [l3g4200dInit, busWrite, delay, failureMode, World.emit, hack, hret,
      L3G4200D_CTRL_REG4, L3G4200D_FS_SEL_2000DPS, L3G4200D_CTRL_REG1, L3G4200D_POWER_ON]

theorem l3g4200dInit_gyro (w : World) (gyro : gyroDev_t) :
    (l3g4200dInit w gyro).gyro = gyro := by
  cases hack : w.writeAck 0 <;> cases hret : w.failureModeReturns <;>
    simp [l3g4200dInit, busWrite, delay, failureMode, World.emit, hack, hret]

theorem l3g4200dInit_returned (w : World) (gyro : gyroDev_t) :
    (l3g4200dInit w gyro).returned = (w.writeAck 0 || w.failureModeReturns) := by
  cases hack : w.writeAck 0 <;> cases hret : w.failureModeReturns <;>
    simp [l3g4200dInit, busWrite, delay, failureMode, World.emit, hack, hret]

theorem probeCalls_succ (dev : busDevicePtr) (k : Nat) :
    probeCalls dev (k + 1) =
      [Event.delay 150, Event.busRead dev 0x0F] ++ probeCalls dev k := by
  simp [probeCalls, List.replicate_succ]

theorem totalDelay_append (l m : List Event) :
    totalDelay (l ++ m) = totalDelay l + totalDelay m := by
  induction l with
  | nil => simp [totalDelay]
  | cons e l ih => cases e <;> simp [totalDelay, ih, Nat.add_assoc]

theorem totalDelay_probeCalls (dev : busDevicePtr) (k : Nat) :
    totalDelay (probeCalls dev k) = 150 * k := by
  induction k with
  | zero => simp [probeCalls, totalDelay]
  | succ k ih =>
    rw [probeCalls_succ, totalDelay_append, ih]
    simp [totalDelay]
    omega

theorem filter_isRelease_probeCalls (dev : busDevicePtr) (k : Nat) :
    (probeCalls dev k).filter isRelease = [] := by
  induction k with
  | zero => simp [probeCalls]
  | succ k ih =>
    rw [probeCalls_succ, List.filter_append, ih]
    simp [isRelease]

/-- The loop of `deviceDetect`, run for `n` iterations: it makes `k` probe
attempts, where attempt `k` is the first match, or `k = n` when none of the
`n` reads matches; it reports a match exactly in the first case. -/
theorem deviceDetectLoop_spec (n : Nat) (w : World) (dev : busDevicePtr) :
    ∃ k, k ≤ n ∧ (0 < n → 1 ≤ k) ∧
      (∀ i, i + 1 < k → ¬ ((w.readResp i).ack = true ∧ (w.readResp i).data.val = 0xD3)) ∧
      ((deviceDetectLoop n w dev).2 = true →
        1 ≤ k ∧ (w.readResp (k - 1)).ack = true ∧ (w.readResp (k - 1)).data.val = 0xD3) ∧
      ((deviceDetectLoop n w dev).2 = false →
        k = n ∧ ∀ i, i < n → ¬ ((w.readResp i).ack = true ∧ (w.readResp i).data.val = 0xD3)) ∧
      (deviceDetectLoop n w dev).1.trace = w.trace ++ probeCalls dev k := by
  induction n generalizing w with
  | zero =>
    refine ⟨0, Nat.le_refl 0, ?_, ?_, ?_, ?_, ?_⟩ <;> simp [deviceDetectLoop, probeCalls]
  | succ n ih =>
    by_cases hM : (w.readResp 0).ack = true ∧ (w.readResp 0).data.val = 0xD3
    · refine ⟨1, by omega, fun _ => Nat.le_refl 1, ?_, ?_, ?_, ?_⟩
      · intro i hi
        omega
      · intro _
        exact ⟨Nat.le_refl 1, hM.1, hM.2⟩
      · simp [deviceDetectLoop, busRead, delay, World.emit, hM.1, hM.2, L3G4200D_ID]
      · simp [deviceDetectLoop, busRead, delay, World.emit, hM.1, hM.2, L3G4200D_ID,
          probeCalls, L3G4200D_WHO_AM_I]
    · have hstep : deviceDetectLoop (n + 1) w dev =
          deviceDetectLoop n (busRead (delay w 150) dev L3G4200D_WHO_AM_I).2 dev := by
        have hc : ((w.readResp 0).ack && (w.readResp 0).data.val == L3G4200D_ID) = false := by
          cases ha : (w.readResp 0).ack
          · rfl
          · have hne : (w.readResp 0).data.val ≠ 0xD3 := fun h => hM ⟨ha, h⟩
            simpa [L3G4200D_ID] using hne
        simp only [deviceDetectLoop]
        simp [busRead, delay, World.emit, hc]
      obtain ⟨k, hk, _, hfirst, htrue, hfalse, htrace⟩ :=
        ih (busRead (delay w 150) dev L3G4200D_WHO_AM_I).2
      have hresp : ∀ i, (busRead (delay w 150) dev L3G4200D_WHO_AM_I).2.readResp i =
          w.readResp (i + 1) := fun i => rfl
      refine ⟨k + 1, by omega, fun _ => by omega, ?_, ?_, ?_, ?_⟩
      · intro i hi
        cases i with
        | zero => exact hM
        | succ i =>
          have := hfirst i (by omega)
          rwa [hresp] at this
      · intro hr
        rw [hstep] at hr
        obtain ⟨hk1, ha, hd⟩ := htrue hr
        rw [hresp] at ha hd
        have hidx : k - 1 + 1 = k + 1 - 1 := by omega
        rw [hidx] at ha hd
        exact ⟨by omega, ha, hd⟩
      · intro hr
        rw [hstep] at hr
        obtain ⟨hkn, hall⟩ := hfalse hr
        refine ⟨by omega, ?_⟩
        intro i hi
        cases i with
        | zero => exact hM
        | succ i =>
          have := hall i (by omega)
          rwa [hresp] at this
      · rw [hstep, htrace, probeCalls_succ]
        simp [busRead, delay, World.emit, L3G4200D_WHO_AM_I]

theorem l3g4200dDetect_not_acquired (w : World) (gyro : gyroDev_t)
    (h : w.deviceInitResp 0 = none) :
    (l3g4200dDetect w gyro).2.2 = false ∧
    (l3g4200dDetect w gyro).2.1 = { gyro with busDev := none } ∧
    (l3g4200dDetect w gyro).1.trace = w.trace ++ [acquireCall gyro] := by
  simp [l3g4200dDetect, busDeviceInit, h, World.emit, acquireCall]

theorem l3g4200dDetect_some (w : World) (gyro : gyroDev_t) (dev : busDevice_t)
    (h : w.deviceInitResp 0 = some dev) :
    l3g4200dDetect w gyro =
      (if !(deviceDetect
            (busDeviceInit w .BUSTYPE_ANY .DEVHW_L3G4200 gyro.imuSensorToUse .OWNER_MPU).2
            (some dev)).2 then
        (busDeviceDeInit
          (deviceDetect
            (busDeviceInit w .BUSTYPE_ANY .DEVHW_L3G4200 gyro.imuSensorToUse .OWNER_MPU).2
            (some dev)).1 (some dev),
         { gyro with busDev := some dev }, false)
      else
        ((deviceDetect
            (busDeviceInit w .BUSTYPE_ANY .DEVHW_L3G4200 gyro.imuSensorToUse .OWNER_MPU).2
            (some dev)).1,
         { gyro with busDev := some dev, initFn := .l3g4200dInit, readFn := .l3g4200dRead,
                     scale := .oneOver14_2857, gyroAlign := dev.param },
         true)) := by
  have ha : (busDeviceInit w .BUSTYPE_ANY .DEVHW_L3G4200 gyro.imuSensorToUse .OWNER_MPU).1 =
      some dev := h
  simp only [l3g4200dDetect, ha]

/-- What `deviceDetect` does on the world left by the acquisition: it sets the
speed, then makes `k` probe attempts. -/
theorem deviceDetect_after_acquire (w : World) (gyro : gyroDev_t) (p : busDevicePtr) :
    ∃ k, 1 ≤ k ∧ k ≤ 5 ∧
      (∀ i, i + 1 < k → ¬ ((w.readResp i).ack = true ∧ (w.readResp i).data.val = 0xD3)) ∧
      ((deviceDetect
          (busDeviceInit w .BUSTYPE_ANY .DEVHW_L3G4200 gyro.imuSensorToUse .OWNER_MPU).2 p).2
          = true →
        (w.readResp (k - 1)).ack = true ∧ (w.readResp (k - 1)).data.val = 0xD3) ∧
      ((deviceDetect
          (busDeviceInit w .BUSTYPE_ANY .DEVHW_L3G4200 gyro.imuSensorToUse .OWNER_MPU).2 p).2
          = false →
        k = 5 ∧ ∀ i, i < 5 → ¬ ((w.readResp i).ack = true ∧ (w.readResp i).data.val = 0xD3)) ∧
      (deviceDetect
          (busDeviceInit w .BUSTYPE_ANY .DEVHW_L3G4200 gyro.imuSensorToUse .OWNER_MPU).2 p).1.trace
        = w.trace ++ ([acquireCall gyro, Event.busSetSpeed p .BUS_SPEED_INITIALIZATION] ++
            probeCalls p k) := by
  obtain ⟨k, hk5, hk1, hfirst, htrue, hfalse, htrace⟩ :=
    deviceDetectLoop_spec 5
      (busSetSpeed
        (busDeviceInit w .BUSTYPE_ANY .DEVHW_L3G4200 gyro.imuSensorToUse .OWNER_MPU).2
        p .BUS_SPEED_INITIALIZATION) p
  refine ⟨k, hk1 (by decide), hk5, hfirst, fun hr => (htrue hr).2, hfalse, ?_⟩
  show (deviceDetectLoop 5 _ p).1.trace = _
  rw [htrace]
  simp [busSetSpeed, busDeviceInit, World.emit, acquireCall]

/-- What `l3g4200dDetect` does once `busDeviceInit` has returned the non-null
pointer `dev`: with `k` the number of probe attempts made, either attempt `k`
matched and the handle is filled in, or all five attempts failed and the device
is released. -/
theorem l3g4200dDetect_acquired (w : World) (gyro : gyroDev_t) (dev : busDevice_t)
    (h : w.deviceInitResp 0 = some dev) :
    ∃ k, 1 ≤ k ∧ k ≤ 5 ∧
      (∀ i, i + 1 < k → ¬ ((w.readResp i).ack = true ∧ (w.readResp i).data.val = 0xD3)) ∧
      (((l3g4200dDetect w gyro).2.2 = true ∧
          ((w.readResp (k - 1)).ack = true ∧ (w.readResp (k - 1)).data.val = 0xD3) ∧
          (l3g4200dDetect w gyro).1.trace =
            w.trace ++ ([acquireCall gyro,
              Event.busSetSpeed (some dev) .BUS_SPEED_INITIALIZATION] ++
              probeCalls (some dev) k) ∧
          (l3g4200dDetect w gyro).2.1 =
            { gyro with busDev := some dev, initFn := .l3g4200dInit, readFn := .l3g4200dRead,
                        scale := .oneOver14_2857, gyroAlign := dev.param }) ∨
        ((l3g4200dDetect w gyro).2.2 = false ∧ k = 5 ∧
          (∀ i, i < 5 → ¬ ((w.readResp i).ack = true ∧ (w.readResp i).data.val = 0xD3)) ∧
          (l3g4200dDetect w gyro).1.trace =
            w.trace ++ ([acquireCall gyro,
              Event.busSetSpeed (some dev) .BUS_SPEED_INITIALIZATION] ++
              probeCalls (some dev) k ++ [Event.busDeviceDeInit (some dev)]) ∧
          (l3g4200dDetect w gyro).2.1 = { gyro with busDev := some dev })) := by
  obtain ⟨k, hk1, hk5, hfirst, htrue, hfalse, htrace⟩ :=
    deviceDetect_after_acquire w gyro (some dev)
  refine ⟨k, hk1, hk5, hfirst, ?_⟩
  rw [l3g4200dDetect_some w gyro dev h]
  cases hr : (deviceDetect
      (busDeviceInit w .BUSTYPE_ANY .DEVHW_L3G4200 gyro.imuSensorToUse .OWNER_MPU).2
      (some dev)).2
  · right
    obtain ⟨hk, hall⟩ := hfalse hr
    simp only [Bool.not_false, if_true]
    refine ⟨trivial, hk, hall, ?_, trivial⟩
    simp [busDeviceDeInit, World.emit, htrace]
  · left
    simp only [Bool.not_true, Bool.false_eq_true, if_false]
    exact ⟨trivial, htrue hr, htrace, trivial⟩

theorem exists_release_iff (l : List Event) :
    (∃ p, Event.busDeviceDeInit p ∈ l) ↔ l.filter isRelease ≠ [] := by
  constructor
  · rintro ⟨p, hp⟩ hnil
    have := List.filter_eq_nil_iff.mp hnil _ hp
    simp [isRelease] at this
  · intro hne
    by_contra hno
    apply hne
    apply List.filter_eq_nil_iff.mpr
    intro e he
    cases e <;> simp [isRelease]
    exact hno ⟨_, he⟩

theorem filter_isRelease_success (gyro : gyroDev_t) (p : busDevicePtr) (k : Nat) :
    ([acquireCall gyro, Event.busSetSpeed p .BUS_SPEED_INITIALIZATION] ++
      probeCalls p k).filter isRelease = [] := by
  rw [List.filter_append, filter_isRelease_probeCalls]
  simp [isRelease, acquireCall]

theorem filter_isRelease_exhausted (gyro : gyroDev_t) (p : busDevicePtr) (k : Nat) :
    ([acquireCall gyro, Event.busSetSpeed p .BUS_SPEED_INITIALIZATION] ++
      probeCalls p k ++ [Event.busDeviceDeInit p]).filter isRelease =
      [Event.busDeviceDeInit p] := by
  rw [List.filter_append, filter_isRelease_success]
  simp [isRelease]

/-- The releases among the calls of one `l3g4200dDetect`: one release of the
acquired device when acquisition succeeded and the call reports failure, none
otherwise. -/
theorem l3g4200dDetect_releases (w : World) (gyro : gyroDev_t) :
    (newEvents w (l3g4200dDetect w gyro).1).filter isRelease =
      (if w.deviceInitResp 0 ≠ none ∧ (l3g4200dDetect w gyro).2.2 = false then
        [Event.busDeviceDeInit (w.deviceInitResp 0)] else []) := by
  cases h : w.deviceInitResp 0 with
  | none =>
    obtain ⟨_, _, ht⟩ := l3g4200dDetect_not_acquired w gyro h
    rw [newEvents_append _ _ _ ht]
    simp [isRelease, acquireCall]
  | some dev =>
    obtain ⟨k, _, _, _, hcase⟩ := l3g4200dDetect_acquired w gyro dev h
    rcases hcase with ⟨hr, _, ht, _⟩ | ⟨hr, _, _, ht, _⟩
    · rw [newEvents_append _ _ _ ht, filter_isRelease_success, hr]
      simp
    · rw [newEvents_append _ _ _ ht, filter_isRelease_exhausted, hr]
      simp

/-- The return value of `l3g4200dDetect` after a successful acquisition. -/
theorem l3g4200dDetect_true_iff (w : World) (gyro : gyroDev_t) (dev : busDevice_t)
    (h : w.deviceInitResp 0 = some dev) :
    (l3g4200dDetect w gyro).2.2 = true ↔
      ∃ i, i < 5 ∧ (w.readResp i).ack = true ∧ (w.readResp i).data.val = 0xD3 := by
  obtain ⟨k, hk1, hk5, _, hcase⟩ := l3g4200dDetect_acquired w gyro dev h
  rcases hcase with ⟨hr, hm, _, _⟩ | ⟨hr, _, hall, _, _⟩
  · constructor
    · intro _
      exact ⟨k - 1, by omega, hm.1, hm.2⟩
    · intro _
      exact hr
  · constructor
    · intro ht
      rw [hr] at ht
      exact absurd ht (by decide)
    · rintro ⟨i, hi, ha, hd⟩
      exact absurd ⟨ha, hd⟩ (hall i hi)

/-! ## `l3g4200dRead` -/

theorem l3g4200dRead_acked (w : World) (gyro : gyroDev_t) (b : Nat → uint8_t)
    (hresp : w.readBufResp 0 = { ack := true, data := b }) :
    (l3g4200dRead w gyro).2.2 = true ∧
    (l3g4200dRead w gyro).2.1.gyroADCRaw X = specSigned16 ((b 0).val * 256 + (b 1).val) ∧
    (l3g4200dRead w gyro).2.1.gyroADCRaw Y = specSigned16 ((b 2).val * 256 + (b 3).val) ∧
    (l3g4200dRead w gyro).2.1.gyroADCRaw Z = specSigned16 ((b 4).val * 256 + (b 5).val) := by
  have hXY : X ≠ Y := by decide
  have hXZ : X ≠ Z := by decide
  have hYZ : Y ≠ Z := by decide
  simp [l3g4200dRead, busReadBuf, hresp, setADCRaw, Function.update, decode_pair, hXY, hXZ, hYZ]

/-- C2: when the 6-byte transaction of `l3g4200dRead` is acknowledged and
delivers buffer `b`, the call returns success and stores in X, Y, Z the signed
16-bit reading (`v` if `v < 32768`, else `v - 65536`) of the big-endian pairs
`b[0]*256+b[1]`, `b[2]*256+b[3]`, `b[4]*256+b[5]`.  In particular the bytes
`12 34 56 78 9A BC` give `(0x1234, 0x5678, -0x6544)`, and `b[4] = 0xFF`,
`b[5] = 0x00` give `Z = -256`. -/
theorem l3g4200dRead_decodes_big_endian_signed (w : World) (gyro : gyroDev_t)
    (b : Nat → uint8_t) (hresp : w.readBufResp 0 = { ack := true, data := b }) :
    ((l3g4200dRead w gyro).2.2 = true ∧
      (l3g4200dRead w gyro).2.1.gyroADCRaw X = specSigned16 ((b 0).val * 256 + (b 1).val) ∧
      (l3g4200dRead w gyro).2.1.gyroADCRaw Y = specSigned16 ((b 2).val * 256 + (b 3).val) ∧
      (l3g4200dRead w gyro).2.1.gyroADCRaw Z = specSigned16 ((b 4).val * 256 + (b 5).val)) ∧
    ((b 0 = 0x12 ∧ b 1 = 0x34 ∧ b 2 = 0x56 ∧ b 3 = 0x78 ∧ b 4 = 0x9A ∧ b 5 = 0xBC) →
      (l3g4200dRead w gyro).2.1.gyroADCRaw X = 0x1234 ∧
      (l3g4200dRead w gyro).2.1.gyroADCRaw Y = 0x5678 ∧
      (l3g4200dRead w gyro).2.1.gyroADCRaw Z = -0x6544) ∧
    ((b 4 = 0xFF ∧ b 5 = 0x00) → (l3g4200dRead w gyro).2.1.gyroADCRaw Z = -256) := by
  obtain ⟨hr, hx, hy, hz⟩ := l3g4200dRead_acked w gyro b hresp
  refine ⟨⟨hr, hx, hy, hz⟩, ?_, ?_⟩
  · rintro ⟨h0, h1, h2, h3, h4, h5⟩
    rw [hx, hy, hz, h0, h1, h2, h3, h4, h5]
    decide
  · rintro ⟨h4, h5⟩
    rw [hz, h4, h5]
    decide

theorem l3g4200dRead_decodes_big_endian_signed_witness :
    sampleReadWorld.readBufResp 0 = { ack := true, data := sampleBytes } ∧
    (l3g4200dRead sampleReadWorld sampleGyro).2.2 = true ∧
    (l3g4200dRead sampleReadWorld sampleGyro).2.1.gyroADCRaw X = 0x1234 ∧
    (l3g4200dRead sampleReadWorld sampleGyro).2.1.gyroADCRaw Y = 0x5678 ∧
    (l3g4200dRead sampleReadWorld sampleGyro).2.1.gyroADCRaw Z = -0x6544 :=
  ⟨rfl,
   (l3g4200dRead_decodes_big_endian_signed sampleReadWorld sampleGyro sampleBytes rfl).1.1,
   (l3g4200dRead_decodes_big_endian_signed sampleReadWorld sampleGyro sampleBytes rfl).2.1
     ⟨rfl, rfl, rfl, rfl, rfl, rfl⟩⟩

/-- C3: when the 6-byte transaction of `l3g4200dRead` is not acknowledged,
whatever bytes `b` it left in the buffer, the call returns failure and the
handle is exactly the handle it was given: the three raw samples and every
other field are unchanged. -/
theorem l3g4200dRead_failure_keeps_handle (w : World) (gyro : gyroDev_t)
    (b : Nat → uint8_t) (hresp : w.readBufResp 0 = { ack := false, data := b }) :
    (l3g4200dRead w gyro).2.2 = false ∧
    (l3g4200dRead w gyro).2.1 = gyro ∧
    (l3g4200dRead w gyro).2.1.gyroADCRaw X = gyro.gyroADCRaw X ∧
    (l3g4200dRead w gyro).2.1.gyroADCRaw Y = gyro.gyroADCRaw Y ∧
    (l3g4200dRead w gyro).2.1.gyroADCRaw Z = gyro.gyroADCRaw Z := by
  simp [l3g4200dRead, busReadBuf, hresp]

theorem l3g4200dRead_failure_keeps_handle_witness :
    failedReadWorld.readBufResp 0 = { ack := false, data := sampleBytes } ∧
    (l3g4200dRead failedReadWorld sampleGyro).2.2 = false ∧
    (l3g4200dRead failedReadWorld sampleGyro).2.1 = sampleGyro :=
  ⟨rfl,
   (l3g4200dRead_failure_keeps_handle failedReadWorld sampleGyro sampleBytes rfl).1,
   (l3g4200dRead_failure_keeps_handle failedReadWorld sampleGyro sampleBytes rfl).2.1⟩

/-! ## `l3g4200dInit` -/

/-- C4, as stated, fails: in `deadWorld` the write to CTRL_REG4 is not
acknowledged and `failureMode` keeps control, so `l3g4200dInit` makes the calls
delay 100, write 0x23 <- 0xF0, `failureMode(FAILURE_ACC_INIT)` and nothing
else: no byte at all is written to CTRL_REG1 (0x20).  Hence it is not true
that for every `lpf` (and every world) the call writes `0x0F | code` there. -/
theorem l3g4200dInit_no_power_on_write_when_failure_keeps_control :
    (newEvents deadWorld (l3g4200dInit deadWorld sampleGyro).world =
        [Event.delay 100, Event.busWrite none 0x23 0xF0,
         Event.failureMode .FAILURE_ACC_INIT] ∧
      (l3g4200dInit deadWorld sampleGyro).returned = false ∧
      ∀ v, Event.busWrite sampleGyro.busDev 0x20 v ∉
        newEvents deadWorld (l3g4200dInit deadWorld sampleGyro).world) ∧
    ¬ (∀ (w : World) (gyro : gyroDev_t),
        Event.busWrite gyro.busDev 0x20 (0x0F ||| specFilterCode gyro.lpf) ∈
          newEvents w (l3g4200dInit w gyro).world) := by
  have ht : newEvents deadWorld (l3g4200dInit deadWorld sampleGyro).world =
      [Event.delay 100, Event.busWrite none 0x23 0xF0,
       Event.failureMode .FAILURE_ACC_INIT] := rfl
  have hno : ∀ v, Event.busWrite sampleGyro.busDev 0x20 v ∉
      newEvents deadWorld (l3g4200dInit deadWorld sampleGyro).world := by
    intro v hv
    rw [ht] at hv
    simp [sampleGyro] at hv
  refine ⟨⟨ht, rfl, hno⟩, ?_⟩
  intro hall
  exact hno _ (hall deadWorld sampleGyro)

/-- C4, amended: for every low-pass-filter setting `lpf`, whenever
`l3g4200dInit` reaches its power-control write, that is, when the write to
CTRL_REG4 was acknowledged or `failureMode` gave control back, the byte it
writes to CTRL_REG1 (0x20) is `0x0F | code`, with `code` = 0x00 for `lpf = 3`,
0x40 for `lpf = 2`, 0x80 for `lpf = 1`, 0xC0 for `lpf = 0` and, for every other
`lpf`, the code of `lpf = 3`; that write is then its last call.  When the write
to CTRL_REG4 is unacknowledged and `failureMode` keeps control, nothing is
written to CTRL_REG1.  The calls of one `l3g4200dInit` are listed in full. -/
theorem l3g4200dInit_writes_power_on_with_filter_code (w : World) (gyro : gyroDev_t) :
    (mpuLowPassFilter gyro.lpf =
        (if gyro.lpf = 3 then 0x00 else if gyro.lpf = 2 then 0x40
         else if gyro.lpf = 1 then 0x80 else if gyro.lpf = 0 then 0xC0
         else mpuLowPassFilter 3)) ∧
    mpuLowPassFilter 3 = 0x00 ∧
    newEvents w (l3g4200dInit w gyro).world =
      [Event.delay 100, Event.busWrite gyro.busDev 0x23 0xF0] ++
        ((if w.writeAck 0 = true then [] else [Event.failureMode .FAILURE_ACC_INIT]) ++
          (if w.writeAck 0 = true ∨ w.failureModeReturns = true then
            [Event.delay 5,
             Event.busWrite gyro.busDev 0x20 (0x0F ||| specFilterCode gyro.lpf)]
           else [])) := by
  refine ⟨?_, rfl, ?_⟩
  · rw [mpuLowPassFilter_eq_spec]
    rfl
  · rw [← mpuLowPassFilter_eq_spec]
    exact newEvents_append _ _ _ (l3g4200dInit_trace w gyro)

/-- C6: `l3g4200dInit` calls `failureMode(FAILURE_ACC_INIT)` if and only if the
write of 0xF0 to CTRL_REG4 (0x23), its first bus transaction, is not
acknowledged, and calls it at most once.  The acknowledgment `a` of the write
to CTRL_REG1 that follows is not looked at: with any other value for it the
calls made, the handle and whether the call returns are the same, and the
handle is the one passed in. -/
theorem l3g4200dInit_failure_iff_fsr_unacked (w : World) (gyro : gyroDev_t) :
    (newEvents w (l3g4200dInit w gyro).world).take 2 =
        [Event.delay 100, Event.busWrite gyro.busDev 0x23 0xF0] ∧
    (Event.failureMode .FAILURE_ACC_INIT ∈ newEvents w (l3g4200dInit w gyro).world ↔
        w.writeAck 0 = false) ∧
    (newEvents w (l3g4200dInit w gyro).world).count (Event.failureMode .FAILURE_ACC_INIT) ≤ 1 ∧
    (l3g4200dInit w gyro).gyro = gyro ∧
    ∀ a : Bool,
      newEvents { w with writeAck := Function.update w.writeAck 1 a }
          (l3g4200dInit { w with writeAck := Function.update w.writeAck 1 a } gyro).world =
        newEvents w (l3g4200dInit w gyro).world ∧
      (l3g4200dInit { w with writeAck := Function.update w.writeAck 1 a } gyro).gyro =
        (l3g4200dInit w gyro).gyro ∧
      (l3g4200dInit { w with writeAck := Function.update w.writeAck 1 a } gyro).returned =
        (l3g4200dInit w gyro).returned := by
  have ht := newEvents_append _ _ _ (l3g4200dInit_trace w gyro)
  refine ⟨?_, ?_, ?_, l3g4200dInit_gyro w gyro, ?_⟩
  · rw [ht]
    rfl
  · rw [ht]
    cases hack : w.writeAck 0 <;> cases hret : w.failureModeReturns <;> simp
  · rw [ht]
    cases hack : w.writeAck 0 <;> cases hret : w.failureModeReturns <;> simp
  · intro a
    refine ⟨?_, ?_, ?_⟩
    · rw [ht, newEvents_append _ _ _ (l3g4200dInit_trace _ gyro)]
      simp
    · rw [l3g4200dInit_gyro, l3g4200dInit_gyro]
    · rw [l3g4200dInit_returned, l3g4200dInit_returned]
      simp

/-- C10: when the write to CTRL_REG4 is acknowledged in both calls, two
successive calls of `l3g4200dInit` both return, each makes the calls
delay 100, write 0x23 <- 0xF0, delay 5, write 0x20 <- 0x0F | filter code, and
the handle after the second call is the handle after the first (which is the
handle passed in), for every `lpf` and whatever the acknowledgments of the two
CTRL_REG1 writes.  `h1` is the acknowledgment of the CTRL_REG4 write of the
first call, `h2` that of the second call, whose world is the one the first call
left. -/
theorem l3g4200dInit_twice_same_writes (w : World) (gyro : gyroDev_t)
    (h1 : w.writeAck 0 = true) (h2 : (l3g4200dInit w gyro).world.writeAck 0 = true) :
    (l3g4200dInit w gyro).returned = true ∧
    (l3g4200dInit (l3g4200dInit w gyro).world (l3g4200dInit w gyro).gyro).returned = true ∧
    newEvents w (l3g4200dInit w gyro).world =
      [Event.delay 100, Event.busWrite gyro.busDev 0x23 0xF0, Event.delay 5,
       Event.busWrite gyro.busDev 0x20 (0x0F ||| specFilterCode gyro.lpf)] ∧
    newEvents (l3g4200dInit w gyro).world
        (l3g4200dInit (l3g4200dInit w gyro).world (l3g4200dInit w gyro).gyro).world =
      newEvents w (l3g4200dInit w gyro).world ∧
    (l3g4200dInit (l3g4200dInit w gyro).world (l3g4200dInit w gyro).gyro).gyro =
      (l3g4200dInit w gyro).gyro ∧
    (l3g4200dInit w gyro).gyro = gyro := by
  have hr1 : (l3g4200dInit w gyro).returned = true := by
    rw [l3g4200dInit_returned, h1]
    rfl
  have ha : (l3g4200dInit w gyro).world.writeAck 0 = true := h2
  have hg := l3g4200dInit_gyro w gyro
  have e1 := newEvents_append _ _ _ (l3g4200dInit_trace w gyro)
  have e2 := newEvents_append _ _ _
    (l3g4200dInit_trace (l3g4200dInit w gyro).world (l3g4200dInit w gyro).gyro)
  refine ⟨hr1, ?_, ?_, ?_, ?_, hg⟩
  · rw [l3g4200dInit_returned, ha]
    rfl
  · rw [e1, mpuLowPassFilter_eq_spec]
    simp [h1]
  · rw [e2, e1, hg]
    simp [h1, ha]
  · rw [l3g4200dInit_gyro]

theorem l3g4200dInit_twice_same_writes_witness :
    ackWorld.writeAck 0 = true ∧
    (l3g4200dInit ackWorld sampleDetectedGyro).world.writeAck 0 = true ∧
    newEvents ackWorld (l3g4200dInit ackWorld sampleDetectedGyro).world =
      [Event.delay 100, Event.busWrite (some sampleDev) 0x23 0xF0, Event.delay 5,
       Event.busWrite (some sampleDev) 0x20 0x4F] ∧
    newEvents (l3g4200dInit ackWorld sampleDetectedGyro).world
        (l3g4200dInit (l3g4200dInit ackWorld sampleDetectedGyro).world
          (l3g4200dInit ackWorld sampleDetectedGyro).gyro).world =
      newEvents ackWorld (l3g4200dInit ackWorld sampleDetectedGyro).world :=
  ⟨rfl, rfl,
   (l3g4200dInit_twice_same_writes ackWorld sampleDetectedGyro rfl rfl).2.2.1,
   (l3g4200dInit_twice_same_writes ackWorld sampleDetectedGyro rfl rfl).2.2.2.1⟩

/-! ## `l3g4200dDetect` -/

/-- C1: when `busDeviceInit` succeeds, `l3g4200dDetect` returns success if and
only if one of the five probe reads of WHO_AM_I is acknowledged and yields the
byte 0xD3.  Reads that are unacknowledged (whatever byte is left in the buffer)
or acknowledged with another byte do not match: if all five are of that kind
the call returns failure. -/
theorem l3g4200dDetect_success_iff_probe_match (w : World) (gyro : gyroDev_t)
    (dev : busDevice_t) (hacq : w.deviceInitResp 0 = some dev) :
    ((l3g4200dDetect w gyro).2.2 = true ↔
      ∃ i, i < 5 ∧ (w.readResp i).ack = true ∧ (w.readResp i).data.val = 0xD3) ∧
    ((∀ i, i < 5 → (w.readResp i).ack = false ∨ (w.readResp i).data.val ≠ 0xD3) →
      (l3g4200dDetect w gyro).2.2 = false) := by
  have hiff := l3g4200dDetect_true_iff w gyro dev hacq
  refine ⟨hiff, ?_⟩
  intro hall
  cases hr : (l3g4200dDetect w gyro).2.2
  · rfl
  · obtain ⟨i, hi, ha, hd⟩ := hiff.mp hr
    rcases hall i hi with hna | hnd
    · rw [ha] at hna
      exact absurd hna (by decide)
    · exact absurd hd hnd

theorem l3g4200dDetect_success_iff_probe_match_witness :
    presentWorld.deviceInitResp 0 = some sampleDev ∧
    (∃ i, i < 5 ∧ (presentWorld.readResp i).ack = true ∧
      (presentWorld.readResp i).data.val = 0xD3) ∧
    (l3g4200dDetect presentWorld sampleGyro).2.2 = true :=
  ⟨rfl, ⟨2, by decide, rfl, rfl⟩,
   (l3g4200dDetect_success_iff_probe_match presentWorld sampleGyro sampleDev rfl).1.2
     ⟨2, by decide, rfl, rfl⟩⟩

/-- C5: `l3g4200dDetect` calls `busDeviceDeInit` if and only if acquisition
succeeded and none of the five probe reads matched (acknowledged with byte
0xD3); in that case it releases the acquired device exactly once and returns
failure.  When the call returns success, or when acquisition fails, it makes no
release. -/
theorem l3g4200dDetect_releases_iff_exhausted (w : World) (gyro : gyroDev_t) :
    ((∃ p, Event.busDeviceDeInit p ∈ newEvents w (l3g4200dDetect w gyro).1) ↔
      (w.deviceInitResp 0 ≠ none ∧
        ∀ i, i < 5 → ¬ ((w.readResp i).ack = true ∧ (w.readResp i).data.val = 0xD3))) ∧
    ((w.deviceInitResp 0 ≠ none ∧
        ∀ i, i < 5 → ¬ ((w.readResp i).ack = true ∧ (w.readResp i).data.val = 0xD3)) →
      (newEvents w (l3g4200dDetect w gyro).1).filter isRelease =
          [Event.busDeviceDeInit (w.deviceInitResp 0)] ∧
        (l3g4200dDetect w gyro).2.2 = false) ∧
    ((l3g4200dDetect w gyro).2.2 = true →
      (newEvents w (l3g4200dDetect w gyro).1).filter isRelease = []) ∧
    (w.deviceInitResp 0 = none →
      (newEvents w (l3g4200dDetect w gyro).1).filter isRelease = []) := by
  have hrel := l3g4200dDetect_releases w gyro
  have hkey : (w.deviceInitResp 0 ≠ none ∧ (l3g4200dDetect w gyro).2.2 = false) ↔
      (w.deviceInitResp 0 ≠ none ∧
        ∀ i, i < 5 → ¬ ((w.readResp i).ack = true ∧ (w.readResp i).data.val = 0xD3)) := by
    cases h : w.deviceInitResp 0 with
    | none => simp
    | some dev =>
      have hiff := l3g4200dDetect_true_iff w gyro dev h
      constructor
      · rintro ⟨hne, hf⟩
        refine ⟨hne, fun i hi hm => ?_⟩
        have ht := hiff.mpr ⟨i, hi, hm.1, hm.2⟩
        rw [hf] at ht
        exact absurd ht (by decide)
      · rintro ⟨hne, hall⟩
        refine ⟨hne, ?_⟩
        cases hr : (l3g4200dDetect w gyro).2.2
        · rfl
        · obtain ⟨i, hi, ha, hd⟩ := hiff.mp hr
          exact absurd ⟨ha, hd⟩ (hall i hi)
  refine ⟨?_, ?_, ?_, ?_⟩
  · rw [exists_release_iff, hrel, ← hkey]
    by_cases hc : w.deviceInitResp 0 ≠ none ∧ (l3g4200dDetect w gyro).2.2 = false
    · simp [hc]
    · simp only [hc, if_false]
      simp
  · intro hc
    have hc2 := hkey.mpr hc
    rw [hrel, if_pos hc2]
    exact ⟨rfl, hc2.2⟩
  · intro ht
    rw [hrel, if_neg]
    rintro ⟨_, hf⟩
    rw [ht] at hf
    exact absurd hf (by decide)
  · intro hn
    rw [hrel, if_neg]
    rintro ⟨hne, _⟩
    exact hne hn

theorem l3g4200dDetect_releases_iff_exhausted_witness :
    (absentWorld.deviceInitResp 0 ≠ none ∧
      ∀ i, i < 5 → ¬ ((absentWorld.readResp i).ack = true ∧
        (absentWorld.readResp i).data.val = 0xD3)) ∧
    (newEvents absentWorld (l3g4200dDetect absentWorld sampleGyro).1).filter isRelease =
      [Event.busDeviceDeInit (some sampleDev)] ∧
    (l3g4200dDetect absentWorld sampleGyro).2.2 = false :=
  ⟨⟨by decide, by decide⟩,
   (l3g4200dDetect_releases_iff_exhausted absentWorld sampleGyro).2.1 ⟨by decide, by decide⟩⟩

/-- C7: when `busDeviceInit` succeeds with device `dev`, `l3g4200dDetect` sets
the bus to initialization speed once and then makes exactly `k` probe attempts,
each a delay of 150 followed by one read of register 0x0F, where attempt `k` is
the first one that matches (acknowledged, byte 0xD3), or `k = 5` when none of
the five matches.  Nothing is delayed or read after the first match:
`1 ≤ k ≤ 5`, and the delays add up to `150 * k`.  The only call that may follow
the probes is the release made when the call reports failure. -/
theorem l3g4200dDetect_probe_sequence (w : World) (gyro : gyroDev_t)
    (dev : busDevice_t) (hacq : w.deviceInitResp 0 = some dev) :
    ∃ k, 1 ≤ k ∧ k ≤ 5 ∧
      (∀ i, i + 1 < k → ¬ ((w.readResp i).ack = true ∧ (w.readResp i).data.val = 0xD3)) ∧
      (((w.readResp (k - 1)).ack = true ∧ (w.readResp (k - 1)).data.val = 0xD3) ∨
        (k = 5 ∧
          ∀ i, i < 5 → ¬ ((w.readResp i).ack = true ∧ (w.readResp i).data.val = 0xD3))) ∧
      newEvents w (l3g4200dDetect w gyro).1 =
        [Event.busDeviceInit .BUSTYPE_ANY .DEVHW_L3G4200 gyro.imuSensorToUse .OWNER_MPU,
         Event.busSetSpeed (some dev) .BUS_SPEED_INITIALIZATION] ++
        (List.replicate k [Event.delay 150, Event.busRead (some dev) 0x0F]).flatten ++
        (if (l3g4200dDetect w gyro).2.2 = true then []
         else [Event.busDeviceDeInit (some dev)]) ∧
      totalDelay (newEvents w (l3g4200dDetect w gyro).1) = 150 * k := by
  obtain ⟨k, hk1, hk5, hfirst, hcase⟩ := l3g4200dDetect_acquired w gyro dev hacq
  refine ⟨k, hk1, hk5, hfirst, ?_⟩
  rcases hcase with ⟨hr, hm, ht, _⟩ | ⟨hr, hk, hall, ht, _⟩
  · refine ⟨Or.inl hm, ?_, ?_⟩
    · rw [newEvents_append _ _ _ ht, hr]
      simp [acquireCall, probeCalls]
    · rw [newEvents_append _ _ _ ht, totalDelay_append, totalDelay_probeCalls]
      simp [totalDelay, acquireCall]
  · refine ⟨Or.inr ⟨hk, hall⟩, ?_, ?_⟩
    · rw [newEvents_append _ _ _ ht, hr]
      simp [acquireCall, probeCalls]
    · rw [newEvents_append _ _ _ ht, totalDelay_append, totalDelay_append,
        totalDelay_probeCalls]
      simp [totalDelay, acquireCall]

theorem l3g4200dDetect_probe_sequence_witness :
    presentWorld.deviceInitResp 0 = some sampleDev ∧
    newEvents presentWorld (l3g4200dDetect presentWorld sampleGyro).1 =
      [Event.busDeviceInit .BUSTYPE_ANY .DEVHW_L3G4200 0 .OWNER_MPU,
       Event.busSetSpeed (some sampleDev) .BUS_SPEED_INITIALIZATION,
       Event.delay 150, Event.busRead (some sampleDev) 0x0F,
       Event.delay 150, Event.busRead (some sampleDev) 0x0F,
       Event.delay 150, Event.busRead (some sampleDev) 0x0F] ∧
    ∃ k, 1 ≤ k ∧ k ≤ 5 ∧
      (∀ i, i + 1 < k → ¬ ((presentWorld.readResp i).ack = true ∧
        (presentWorld.readResp i).data.val = 0xD3)) ∧
      (((presentWorld.readResp (k - 1)).ack = true ∧
          (presentWorld.readResp (k - 1)).data.val = 0xD3) ∨
        (k = 5 ∧ ∀ i, i < 5 → ¬ ((presentWorld.readResp i).ack = true ∧
          (presentWorld.readResp i).data.val = 0xD3))) ∧
      newEvents presentWorld (l3g4200dDetect presentWorld sampleGyro).1 =
        [Event.busDeviceInit .BUSTYPE_ANY .DEVHW_L3G4200 sampleGyro.imuSensorToUse .OWNER_MPU,
         Event.busSetSpeed (some sampleDev) .BUS_SPEED_INITIALIZATION] ++
        (List.replicate k [Event.delay 150, Event.busRead (some sampleDev) 0x0F]).flatten ++
        (if (l3g4200dDetect presentWorld sampleGyro).2.2 = true then []
         else [Event.busDeviceDeInit (some sampleDev)]) ∧
      totalDelay (newEvents presentWorld (l3g4200dDetect presentWorld sampleGyro).1) =
        150 * k :=
  ⟨rfl, rfl, l3g4200dDetect_probe_sequence presentWorld sampleGyro sampleDev rfl⟩

/-- C8: when `busDeviceInit` returns null, `l3g4200dDetect` returns failure and
the acquisition attempt is its only call: no speed change, delay, register read
or release follows.  The handle keeps its `initFn`, `readFn`, `scale` and
`gyroAlign`; only `busDev` is set, to null. -/
theorem l3g4200dDetect_acquisition_failure (w : World) (gyro : gyroDev_t)
    (hacq : w.deviceInitResp 0 = none) :
    (l3g4200dDetect w gyro).2.2 = false ∧
    newEvents w (l3g4200dDetect w gyro).1 =
      [Event.busDeviceInit .BUSTYPE_ANY .DEVHW_L3G4200 gyro.imuSensorToUse .OWNER_MPU] ∧
    (newEvents w (l3g4200dDetect w gyro).1).drop 1 = [] ∧
    (l3g4200dDetect w gyro).2.1.initFn = gyro.initFn ∧
    (l3g4200dDetect w gyro).2.1.readFn = gyro.readFn ∧
    (l3g4200dDetect w gyro).2.1.scale = gyro.scale ∧
    (l3g4200dDetect w gyro).2.1.gyroAlign = gyro.gyroAlign ∧
    (l3g4200dDetect w gyro).2.1 = { gyro with busDev := none } := by
  obtain ⟨hr, hg, ht⟩ := l3g4200dDetect_not_acquired w gyro hacq
  have he := newEvents_append _ _ _ ht
  refine ⟨hr, ?_, ?_, ?_, ?_, ?_, ?_, hg⟩
  · rw [he]
    rfl
  · rw [he]
    rfl
  all_goals rw [hg]

theorem l3g4200dDetect_acquisition_failure_witness :
    deadWorld.deviceInitResp 0 = none ∧
    (l3g4200dDetect deadWorld sampleGyro).2.2 = false ∧
    newEvents deadWorld (l3g4200dDetect deadWorld sampleGyro).1 =
      [Event.busDeviceInit .BUSTYPE_ANY .DEVHW_L3G4200 0 .OWNER_MPU] :=
  ⟨rfl,
   (l3g4200dDetect_acquisition_failure deadWorld sampleGyro rfl).1,
   (l3g4200dDetect_acquisition_failure deadWorld sampleGyro rfl).2.1⟩

/-- C9, as stated, fails: in `absentWorld` acquisition yields `sampleDev`, all
five probe reads are unacknowledged, `l3g4200dDetect` releases the device and
returns failure, and the handle's `busDev` still points at `sampleDev`. -/
theorem l3g4200dDetect_failure_keeps_released_pointer :
    ((l3g4200dDetect absentWorld sampleGyro).2.2 = false ∧
      (l3g4200dDetect absentWorld sampleGyro).2.1.busDev = some sampleDev ∧
      Event.busDeviceDeInit (some sampleDev) ∈
        newEvents absentWorld (l3g4200dDetect absentWorld sampleGyro).1) ∧
    ¬ (∀ (w : World) (gyro : gyroDev_t),
        (l3g4200dDetect w gyro).2.2 = false → (l3g4200dDetect w gyro).2.1.busDev = none) := by
  refine ⟨⟨rfl, rfl, by decide⟩, ?_⟩
  intro hall
  have h := hall absentWorld sampleGyro rfl
  exact absurd h (by decide)

/-- C9, amended: after any call of `l3g4200dDetect` the handle's `busDev` is
the pointer `busDeviceInit` returned.  So it is non-null when detection
succeeded and null when detect failed because acquisition failed; when detect
failed because all five probes failed, `busDev` is not reset: it still holds
the non-null pointer that was passed to `busDeviceDeInit`. -/
theorem l3g4200dDetect_busDev_is_acquired_pointer (w : World) (gyro : gyroDev_t) :
    (l3g4200dDetect w gyro).2.1.busDev = w.deviceInitResp 0 ∧
    ((l3g4200dDetect w gyro).2.2 = true → (l3g4200dDetect w gyro).2.1.busDev ≠ none) ∧
    (w.deviceInitResp 0 = none →
      (l3g4200dDetect w gyro).2.2 = false ∧ (l3g4200dDetect w gyro).2.1.busDev = none) ∧
    (∀ dev, w.deviceInitResp 0 = some dev → (l3g4200dDetect w gyro).2.2 = false →
      (l3g4200dDetect w gyro).2.1.busDev = some dev ∧
      (newEvents w (l3g4200dDetect w gyro).1).filter isRelease =
        [Event.busDeviceDeInit (some dev)]) := by
  have hbus : (l3g4200dDetect w gyro).2.1.busDev = w.deviceInitResp 0 := by
    cases h : w.deviceInitResp 0 with
    | none =>
      rw [(l3g4200dDetect_not_acquired w gyro h).2.1]
    | some dev =>
      obtain ⟨k, _, _, _, hcase⟩ := l3g4200dDetect_acquired w gyro dev h
      rcases hcase with ⟨_, _, _, hg⟩ | ⟨_, _, _, _, hg⟩ <;> rw [hg]
  refine ⟨hbus, ?_, ?_, ?_⟩
  · intro ht hnone
    rw [hbus] at hnone
    rw [(l3g4200dDetect_not_acquired w gyro hnone).1] at ht
    exact absurd ht (by decide)
  · intro hnone
    exact ⟨(l3g4200dDetect_not_acquired w gyro hnone).1, by rw [hbus, hnone]⟩
  · intro dev hsome hf
    refine ⟨by rw [hbus, hsome], ?_⟩
    rw [l3g4200dDetect_releases, if_pos ⟨by rw [hsome]; exact Option.some_ne_none dev, hf⟩, hsome]

theorem l3g4200dDetect_busDev_is_acquired_pointer_witness :
    absentWorld.deviceInitResp 0 = some sampleDev ∧
    (l3g4200dDetect absentWorld sampleGyro).2.2 = false ∧
    (l3g4200dDetect absentWorld sampleGyro).2.1.busDev = some sampleDev ∧
    (newEvents absentWorld (l3g4200dDetect absentWorld sampleGyro).1).filter isRelease =
      [Event.busDeviceDeInit (some sampleDev)] :=
  ⟨rfl, rfl,
   (l3g4200dDetect_busDev_is_acquired_pointer absentWorld sampleGyro).2.2.2
     sampleDev rfl rfl⟩

end L3G4200D
